import Mathlib

/-!
Shallow embedding of the DocEasy real-time signaling relay
(src/backend/app.py, Socket.IO event handlers) together with the
document-store operations it calls.

The handlers `handle_connect`, `handle_disconnect`, `handle_authenticate`,
`handle_join_room`, `handle_leave_room` and `handle_webrtc_signal` are
translated directly from the source.  The `WebRTCRoom` store operations live
in models.py, which is not among the sources, so they are modelled from the
spec (each such definition says so in its doc comment).  A `Faults` record
says which store calls raise during one handler invocation; a raising call
transfers control to the handler's except block, exactly as in the source.
-/

namespace DocEasy

/-- A Python value, as far as truthiness and payload structure matter. -/
inductive PyVal where
  | vNull : PyVal
  | vBool : Bool → PyVal
  | vInt : Int → PyVal
  | vStr : String → PyVal
  | vList : List PyVal → PyVal
  | vDict : List (String × PyVal) → PyVal
  deriving Repr

/-- Python truthiness of a value. -/
def PyVal.truthy : PyVal → Bool
  | vNull => false
  | vBool b => b
  | vInt n => n ≠ 0
  | vStr s => s ≠ ""
  | vList xs => ¬ xs.isEmpty
  | vDict xs => ¬ xs.isEmpty

/-- Truthiness of `data.get(k)` for a field modelled as an optional value:
`None` (absent key) is falsy. -/
def optTruthy : Option PyVal → Bool
  | none => false
  | some v => v.truthy

/-- Truthiness of an optional string field: absent or empty is falsy. -/
def strTruthy : Option String → Bool
  | none => false
  | some s => s ≠ ""

/-- The identity Socket.IO keeps per connection after `authenticate`
(`save_session(request.sid, {user_id, user_role})`). -/
structure Session where
  user_id : String
  user_role : String
  deriving Repr, DecidableEq

/-- A participant record as built in `handle_join_room`. -/
structure Participant where
  socket_id : String
  user_id : String
  user_role : String
  joined_at : Nat
  deriving Repr, DecidableEq

/-- A message-log record as built in `handle_webrtc_signal`. -/
structure SignalRecord where
  user_id : String
  user_role : String
  timestamp : Nat
  signal : PyVal
  target_id : Option String
  deriving Repr

/-- A room document as built in `handle_join_room`. -/
structure RoomDoc where
  room_id : String
  created_by : String
  status : String
  participants : List Participant
  messages : List SignalRecord
  deriving Repr

/-- Modelled from the spec: `WebRTCRoom.find_by_room_id` is defined in
models.py, which is not among the sources; per the persistence interface
(`findRoomById(roomId)`) it returns the room document with the given
room_id, if any. -/
def findByRoomId : List RoomDoc → String → Option RoomDoc
  | [], _ => none
  | r :: rs, rid => if r.room_id = rid then some r else findByRoomId rs rid

/-- Modelled from the spec: `WebRTCRoom.create` is defined in models.py,
which is not among the sources; per the persistence interface
(`createRoom(doc)`) it inserts the given room document into the store. -/
def createRoomDoc (store : List RoomDoc) (doc : RoomDoc) : List RoomDoc :=
  store ++ [doc]

/-- Modelled from the spec: `WebRTCRoom.add_participant` is defined in
models.py, which is not among the sources.  The spec says a Participant
record keyed by the connection id is appended and that the participants
list must never hold two records with the same connection id, so a record
with the joining connection id replaces any existing record with that
connection id and is appended otherwise. -/
def upsertParticipant (ps : List Participant) (p : Participant) : List Participant :=
  if ps.any (fun q => q.socket_id = p.socket_id) then
    ps.map (fun q => if q.socket_id = p.socket_id then p else q)
  else ps ++ [p]

/-- Lift `upsertParticipant` to the room with the given room_id. -/
def addParticipant (store : List RoomDoc) (rid : String) (p : Participant) : List RoomDoc :=
  store.map (fun r =>
    if r.room_id = rid then { r with participants := upsertParticipant r.participants p } else r)

/-- Modelled from the spec: `WebRTCRoom.remove_participant` is defined in
models.py, which is not among the sources; per the persistence interface
(`removeParticipant(roomId, userId)`) it removes the participant records
matching the given user_id from the room. -/
def removeParticipant (store : List RoomDoc) (rid : String) (uid : String) : List RoomDoc :=
  store.map (fun r =>
    if r.room_id = rid then { r with participants := r.participants.filter (fun p => p.user_id ≠ uid) } else r)

/-- Modelled from the spec: `WebRTCRoom.add_message` is defined in models.py,
which is not among the sources; per the persistence interface
(`addMessage(roomId, record)`) it appends a SignalRecord to the room's
message log. -/
def addMessage (store : List RoomDoc) (rid : String) (m : SignalRecord) : List RoomDoc :=
  store.map (fun r =>
    if r.room_id = rid then { r with messages := r.messages ++ [m] } else r)

/-- Delivery scope of one `emit` call.  `toSid s` stands for
`emit(..., room=s)` where `s` is a socket id: every connected socket is a
member of the room named by its own sid, so the event reaches exactly that
socket. -/
inductive Dest where
  | toCaller : Dest
  | toSid : String → Dest
  | toRoom : String → Dest
  | toRoomExcept : String → String → Dest
  deriving Repr, DecidableEq

/-- One outbound event produced by a handler. -/
structure Emit where
  event : String
  payload : PyVal
  dest : Dest
  deriving Repr

/-- The server-side state the handlers read and write: the per-connection
session map, the Socket.IO room membership (pairs room_id × sid), and the
room-document store. -/
structure ServerState where
  sessions : List (String × Session)
  sioRooms : List (String × String)
  store : List RoomDoc
  deriving Repr

/-- The sids currently in a Socket.IO room. -/
def sioMembers (rooms : List (String × String)) (rid : String) : List String :=
  (rooms.filter (fun p => p.1 = rid)).map (fun p => p.2)

/-- `join_room(room_id)` at the transport layer (idempotent). -/
def sioJoin (rooms : List (String × String)) (rid sid : String) : List (String × String) :=
  if (rid, sid) ∈ rooms then rooms else rooms ++ [(rid, sid)]

/-- `leave_room(room_id)` at the transport layer. -/
def sioLeave (rooms : List (String × String)) (rid sid : String) : List (String × String) :=
  rooms.filter (fun p => p ≠ (rid, sid))

/-- `socketio.server.get_session(request.sid)`. -/
def getSession : List (String × Session) → String → Option Session
  | [], _ => none
  | p :: ps, sid => if p.1 = sid then some p.2 else getSession ps sid

/-- `socketio.server.save_session(request.sid, ...)`: overwrites silently. -/
def saveSession (ss : List (String × Session)) (sid : String) (s : Session) :
    List (String × Session) :=
  if ss.any (fun p => p.1 = sid) then ss.map (fun p => if p.1 = sid then (sid, s) else p)
  else ss ++ [(sid, s)]

/-- The sids an emit reaches, given the transport room membership and the
calling sid. -/
def recipients (rooms : List (String × String)) (caller : String) : Dest → List String
  | .toCaller => [caller]
  | .toSid s => [s]
  | .toRoom r => sioMembers rooms r
  | .toRoomExcept r skip => (sioMembers rooms r).filter (fun s => s ≠ skip)

/-- Which document-store calls raise (PersistenceError) during one handler
invocation.  A raising call transfers control to the handler's except
block. -/
structure Faults where
  findFails : Bool
  createFails : Bool
  addParticipantFails : Bool
  removeParticipantFails : Bool
  addMessageFails : Bool
  deriving Repr, DecidableEq

/-- The fault-free store. -/
def noFaults : Faults := ⟨false, false, false, false, false⟩

/-- `{'error': msg}` payload. -/
def errPayload (msg : String) : PyVal := .vDict [("error", .vStr msg)]

/-- Stand-in for `str(e)` of a raised store error. -/
def persistenceErrorMsg : String := "PersistenceError"

/-- Inbound `join_room` / `leave_room` data (`data.get('room_id')`). -/
structure JoinData where
  room_id : Option String
  deriving Repr, DecidableEq

/-- Inbound `webrtc_signal` data. -/
structure SignalData where
  room_id : Option String
  signal : Option PyVal
  target_id : Option String
  deriving Repr

/-- app.py `handle_connect`: ack the connection. -/
def handle_connect (st : ServerState) (sid : String) : ServerState × List Emit :=
  (st, [⟨"connected", .vDict [("status", .vStr "connected"), ("sid", .vStr sid)], .toCaller⟩])

/-- app.py `handle_disconnect` (lines 150-152): the body only logs; it
mutates nothing and emits nothing. -/
def handle_disconnect (st : ServerState) (_sid : String) : ServerState × List Emit :=
  (st, [])

/-- app.py `handle_authenticate`: `verify` stands for
`jwt.decode(token, jwt_secret, algorithms=['HS256'])` (an external
library call), returning the embedded identity or raising. -/
def handle_authenticate (verify : String → Option Session) (st : ServerState) (sid : String)
    (token : Option String) : ServerState × List Emit :=
  if ¬ strTruthy token then
    (st, [⟨"auth_error", errPayload "No token provided", .toCaller⟩])
  else
    match verify (token.getD "") with
    | none => (st, [⟨"auth_error", errPayload "jwt decode failed", .toCaller⟩])
    | some sess =>
        ({ st with sessions := saveSession st.sessions sid sess },
         [⟨"authenticated",
           .vDict [("status", .vStr "success"), ("user_id", .vStr sess.user_id),
                   ("user_role", .vStr sess.user_role)], .toCaller⟩])

/-- app.py `handle_join_room`.  `now` stands for `time.time()`.  The
transport-level `join_room(room_id)` precedes every store call, exactly as
in the source, so a raising store call leaves the transport membership
mutated while the except block emits `room_error`. -/
def handle_join_room (f : Faults) (st : ServerState) (sid : String) (d : JoinData)
    (now : Nat) : ServerState × List Emit :=
  match getSession st.sessions sid with
  | none => (st, [⟨"room_error", errPayload "Not authenticated", .toCaller⟩])
  | some sess =>
    if ¬ strTruthy d.room_id then
      (st, [⟨"room_error", errPayload "Room ID is required", .toCaller⟩])
    else
      let rid := d.room_id.getD ""
      let st1 := { st with sioRooms := sioJoin st.sioRooms rid sid }
      let participant : Participant := ⟨sid, sess.user_id, sess.user_role, now⟩
      if f.findFails then (st1, [⟨"room_error", errPayload persistenceErrorMsg, .toCaller⟩])
      else if (findByRoomId st1.store rid).isNone ∧ f.createFails then
        (st1, [⟨"room_error", errPayload persistenceErrorMsg, .toCaller⟩])
      else
        let st2 :=
          if (findByRoomId st1.store rid).isNone then
            { st1 with store := createRoomDoc st1.store ⟨rid, sess.user_id, "active", [], []⟩ }
          else st1
        if f.addParticipantFails then
          (st2, [⟨"room_error", errPayload persistenceErrorMsg, .toCaller⟩])
        else
          let st3 := { st2 with store := addParticipant st2.store rid participant }
          (st3,
           [⟨"user_joined",
             .vDict [("user_id", .vStr sess.user_id), ("user_role", .vStr sess.user_role)],
             .toRoomExcept rid sid⟩,
            ⟨"room_joined", .vDict [("room_id", .vStr rid), ("status", .vStr "joined")],
             .toCaller⟩])

/-- app.py `handle_leave_room`: silent no-op when unauthenticated or
room_id is falsy; otherwise transport-level leave, participant removal,
then an unconditional `user_left` emit to the whole room (no skip_sid).
A raising store call is caught and only logged (no emit). -/
def handle_leave_room (f : Faults) (st : ServerState) (sid : String) (d : JoinData) :
    ServerState × List Emit :=
  match getSession st.sessions sid with
  | none => (st, [])
  | some sess =>
    if ¬ strTruthy d.room_id then (st, [])
    else
      let rid := d.room_id.getD ""
      let st1 := { st with sioRooms := sioLeave st.sioRooms rid sid }
      if f.removeParticipantFails then (st1, [])
      else
        let st2 := { st1 with store := removeParticipant st1.store rid sess.user_id }
        (st2, [⟨"user_left", .vDict [("user_id", .vStr sess.user_id)], .toRoom rid⟩])

/-- The loop in `handle_webrtc_signal`: socket id of the first participant
whose `str(user_id)` equals `str(target_id)`. -/
def findTargetSocket : List Participant → String → Option String
  | [], _ => none
  | p :: ps, t => if p.user_id = t then some p.socket_id else findTargetSocket ps t

/-- Outbound `webrtc_signal` payload. -/
def signalPayload (sess : Session) (sig : PyVal) : PyVal :=
  .vDict [("from_user_id", .vStr sess.user_id), ("from_user_role", .vStr sess.user_role),
          ("signal", sig)]

/-- app.py `handle_webrtc_signal`.  The message-log append precedes
delivery; if it raises, the except block emits `signal_error` and no
delivery happens.  With a truthy target_id whose first matching participant
has a truthy socket_id, the payload goes to that socket only; in every
other case it is broadcast to the room minus the sender. -/
def handle_webrtc_signal (f : Faults) (st : ServerState) (sid : String) (d : SignalData)
    (now : Nat) : ServerState × List Emit :=
  match getSession st.sessions sid with
  | none => (st, [⟨"signal_error", errPayload "Not authenticated", .toCaller⟩])
  | some sess =>
    if ¬ strTruthy d.room_id ∨ ¬ optTruthy d.signal then
      (st, [⟨"signal_error", errPayload "Room ID and signal are required", .toCaller⟩])
    else
      let rid := d.room_id.getD ""
      let sig := d.signal.getD .vNull
      let record : SignalRecord := ⟨sess.user_id, sess.user_role, now, sig, d.target_id⟩
      if f.addMessageFails then
        (st, [⟨"signal_error", errPayload persistenceErrorMsg, .toCaller⟩])
      else
        let st1 := { st with store := addMessage st.store rid record }
        if strTruthy d.target_id then
          if f.findFails then
            (st1, [⟨"signal_error", errPayload persistenceErrorMsg, .toCaller⟩])
          else
            match findByRoomId st1.store rid with
            | some room =>
              match findTargetSocket room.participants (d.target_id.getD "") with
              | some tsock =>
                if tsock ≠ "" then
                  (st1, [⟨"webrtc_signal", signalPayload sess sig, .toSid tsock⟩])
                else
                  (st1, [⟨"webrtc_signal", signalPayload sess sig, .toRoomExcept rid sid⟩])
              | none => (st1, [⟨"webrtc_signal", signalPayload sess sig, .toRoomExcept rid sid⟩])
            | none => (st1, [⟨"webrtc_signal", signalPayload sess sig, .toRoomExcept rid sid⟩])
        else
          (st1, [⟨"webrtc_signal", signalPayload sess sig, .toRoomExcept rid sid⟩])

/-- One inbound event, tagged with the originating sid. -/
inductive Event where
  | auth : String → Option String → Event
  | join : String → JoinData → Nat → Event
  | leave : String → JoinData → Event
  | signal : String → SignalData → Nat → Event
  | connect : String → Event
  | disconnect : String → Event
  deriving Repr

/-- Dispatch one inbound event to its handler. -/
def step (verify : String → Option Session) (f : Faults) (st : ServerState) :
    Event → ServerState × List Emit
  | .auth sid tok => handle_authenticate verify st sid tok
  | .join sid d now => handle_join_room f st sid d now
  | .leave sid d => handle_leave_room f st sid d
  | .signal sid d now => handle_webrtc_signal f st sid d now
  | .connect sid => handle_connect st sid
  | .disconnect sid => handle_disconnect st sid

/-- The state at process start: nothing bound, no rooms. -/
def initState : ServerState := ⟨[], [], []⟩

/-- Run a sequence of inbound events from a state. -/
def run (verify : String → Option Session) (f : Faults) (st : ServerState) :
    List Event → ServerState
  | [] => st
  | e :: es => run verify f (step verify f st e).1 es

/-- A token verifier binding three users, for concrete scenarios. -/
def demoVerify : String → Option Session
  | "tokA" => some ⟨"u1", "patient"⟩
  | "tokB" => some ⟨"u2", "doctor"⟩
  | "tokC" => some ⟨"u3", "doctor"⟩
  | _ => none

/-- The room document reached after sA (u1/patient), sB (u2/doctor) and
sC (u3/doctor) joined room "r" in that order. -/
def demoRoom : RoomDoc :=
  ⟨"r", "u1", "active",
   [⟨"sA", "u1", "patient", 1⟩, ⟨"sB", "u2", "doctor", 2⟩, ⟨"sC", "u3", "doctor", 3⟩],
   []⟩

/-- The server state with the three participants of `demoRoom` authenticated
and joined to room "r". -/
def demoState : ServerState :=
  ⟨[("sA", ⟨"u1", "patient"⟩), ("sB", ⟨"u2", "doctor"⟩), ("sC", ⟨"u3", "doctor"⟩)],
   [("r", "sA"), ("r", "sB"), ("r", "sC")],
   [demoRoom]⟩

/-- A sample signaling payload (an SDP offer). -/
def demoOffer : PyVal := .vDict [("type", .vStr "offer")]

/-- Sanity anchor: `demoState` is the state the relay reaches from the empty
state on three authenticate/join sequences. -/
theorem demoState_reachable :
    run demoVerify noFaults initState
      [.auth "sA" (some "tokA"), .join "sA" ⟨some "r"⟩ 1,
       .auth "sB" (some "tokB"), .join "sB" ⟨some "r"⟩ 2,
       .auth "sC" (some "tokC"), .join "sC" ⟨some "r"⟩ 3] = demoState := rfl

/-- Finding a room after a message append: the looked-up document is the
original one with the record appended (participants untouched). -/
theorem findByRoomId_addMessage (store : List RoomDoc) (rid : String) (m : SignalRecord) :
    findByRoomId (addMessage store rid m) rid =
      (findByRoomId store rid).map (fun r => { r with messages := r.messages ++ [m] }) := by
  induction store with
  | nil => rfl
  | cons r rs ih =>
      by_cases h : r.room_id = rid
      · simp [findByRoomId, addMessage, h]
      · simpa [findByRoomId, addMessage, h] using ih

/-- Finding a room after a participant upsert. -/
theorem findByRoomId_addParticipant (store : List RoomDoc) (rid : String) (p : Participant) :
    findByRoomId (addParticipant store rid p) rid =
      (findByRoomId store rid).map
        (fun r => { r with participants := upsertParticipant r.participants p }) := by
  induction store with
  | nil => rfl
  | cons r rs ih =>
      by_cases h : r.room_id = rid
      · simp [findByRoomId, addParticipant, h]
      · simpa [findByRoomId, addParticipant, h] using ih

/-- Creating a room that was absent makes it findable. -/
theorem findByRoomId_create_absent (store : List RoomDoc) (rid : String) (d : RoomDoc)
    (habs : findByRoomId store rid = none) (hd : d.room_id = rid) :
    findByRoomId (createRoomDoc store d) rid = some d := by
  induction store with
  | nil => simp [findByRoomId, createRoomDoc, hd]
  | cons r rs ih =>
      by_cases h : r.room_id = rid
      · simp [findByRoomId, h] at habs
      · have habs2 : findByRoomId rs rid = none := by simpa [findByRoomId, h] using habs
        simpa [findByRoomId, createRoomDoc, h] using ih habs2

/-- The participant scan of `handle_webrtc_signal` returns the unique
participant carrying the target user_id. -/
theorem findTargetSocket_of_unique (ps : List Participant) (t : String) (p : Participant)
    (hmem : p ∈ ps) (hid : p.user_id = t)
    (huniq : ∀ q ∈ ps, q.user_id = t → q = p) :
    findTargetSocket ps t = some p.socket_id := by
  induction ps with
  | nil => cases hmem
  | cons a as ih =>
      by_cases h : a.user_id = t
      · have ha : a = p := huniq a (List.mem_cons_self a as) h
        simp [findTargetSocket, h, ha, hid]
      · have hmem2 : p ∈ as := by
          rcases List.mem_cons.mp hmem with h1 | h1
          · exact absurd (h1 ▸ hid) h
          · exact h1
        simp only [findTargetSocket, if_neg h]
        exact ih hmem2 (fun q hq hqt => huniq q (List.mem_cons_of_mem a hq) hqt)

/-- The participant scan finds nothing when no participant carries the
target user_id. -/
theorem findTargetSocket_eq_none (ps : List Participant) (t : String)
    (h : ∀ q ∈ ps, q.user_id ≠ t) : findTargetSocket ps t = none := by
  induction ps with
  | nil => rfl
  | cons a as ih =>
      simp only [findTargetSocket, if_neg (h a (List.mem_cons_self a as))]
      exact ih (fun q hq => h q (List.mem_cons_of_mem a hq))

/-- The upserted participant is in the upserted list. -/
theorem self_mem_upsertParticipant (ps : List Participant) (p : Participant) :
    p ∈ upsertParticipant ps p := by
  unfold upsertParticipant
  split
  · next h =>
      rcases List.any_eq_true.mp h with ⟨q, hq, hqe⟩
      refine List.mem_map.mpr ⟨q, hq, ?_⟩
      rw [if_pos (by simpa using hqe)]
  · exact List.mem_append_right _ (List.mem_singleton.mpr rfl)

/-- Transport room membership after a transport join. -/
theorem sioMembers_sioJoin (rooms : List (String × String)) (rid sid : String) :
    sioMembers (sioJoin rooms rid sid) rid =
      if (rid, sid) ∈ rooms then sioMembers rooms rid else sioMembers rooms rid ++ [sid] := by
  unfold sioJoin
  split
  · rfl
  · simp [sioMembers, List.filter_append]

/-- A room's member list has no duplicates when the membership pair list
has none. -/
theorem sioMembers_nodup (rooms : List (String × String)) (rid : String)
    (h : rooms.Nodup) : (sioMembers rooms rid).Nodup := by
  refine List.Nodup.map_on ?_ (h.filter _)
  intro x hx y hy hxy
  have hx1 : x.1 = rid := by simpa using (List.mem_filter.mp hx).2
  have hy1 : y.1 = rid := by simpa using (List.mem_filter.mp hy).2
  exact Prod.ext (hx1.trans hy1.symm) hxy

/-- A transport join keeps the membership pair list duplicate-free. -/
theorem sioJoin_nodup (rooms : List (String × String)) (rid sid : String)
    (h : rooms.Nodup) : (sioJoin rooms rid sid).Nodup := by
  unfold sioJoin
  split
  · exact h
  · next hmem => simp [List.nodup_append, h, hmem]

/-- The `user_joined` / `room_joined` delivery facts shared by the join
claims: the ack reaches the joiner alone; the room broadcast skips the
joiner, reaches every prior member, and reaches each at most once. -/
theorem join_recipient_facts (st : ServerState) (sid rid : String)
    (hnd : st.sioRooms.Nodup) :
    recipients (sioJoin st.sioRooms rid sid) sid Dest.toCaller = [sid] ∧
    sid ∉ recipients (sioJoin st.sioRooms rid sid) sid (Dest.toRoomExcept rid sid) ∧
    (∀ m ∈ sioMembers st.sioRooms rid, m ≠ sid →
      m ∈ recipients (sioJoin st.sioRooms rid sid) sid (Dest.toRoomExcept rid sid)) ∧
    (recipients (sioJoin st.sioRooms rid sid) sid (Dest.toRoomExcept rid sid)).Nodup := by
  refine ⟨rfl, ?_, ?_, ?_⟩
  · simp [recipients, List.mem_filter]
  · intro m hm hne
    have hmem : m ∈ sioMembers (sioJoin st.sioRooms rid sid) rid := by
      rw [sioMembers_sioJoin]
      split
      · exact hm
      · exact List.mem_append_left _ hm
    simp [recipients, List.mem_filter, hmem, hne]
  · exact (sioMembers_nodup _ rid (sioJoin_nodup _ rid sid hnd)).filter _

/-- A fault-free authenticated join of an absent room, evaluated. -/
theorem handle_join_room_success_create (st : ServerState) (sid : String) (sess : Session)
    (rid : String) (now : Nat)
    (hs : getSession st.sessions sid = some sess) (hrid : rid ≠ "")
    (habs : findByRoomId st.store rid = none) :
    handle_join_room noFaults st sid ⟨some rid⟩ now =
      ({ st with sioRooms := sioJoin st.sioRooms rid sid,
                 store := addParticipant (createRoomDoc st.store ⟨rid, sess.user_id, "active", [], []⟩)
                   rid ⟨sid, sess.user_id, sess.user_role, now⟩ },
       [⟨"user_joined", .vDict [("user_id", .vStr sess.user_id), ("user_role", .vStr sess.user_role)],
         .toRoomExcept rid sid⟩,
        ⟨"room_joined", .vDict [("room_id", .vStr rid), ("status", .vStr "joined")], .toCaller⟩]) := by
  simp [handle_join_room, hs, strTruthy, hrid, noFaults, habs]

/-- A fault-free authenticated join of an existing room, evaluated. -/
theorem handle_join_room_success_existing (st : ServerState) (sid : String) (sess : Session)
    (rid : String) (now : Nat) (room : RoomDoc)
    (hs : getSession st.sessions sid = some sess) (hrid : rid ≠ "")
    (hr : findByRoomId st.store rid = some room) :
    handle_join_room noFaults st sid ⟨some rid⟩ now =
      ({ st with sioRooms := sioJoin st.sioRooms rid sid,
                 store := addParticipant st.store rid ⟨sid, sess.user_id, sess.user_role, now⟩ },
       [⟨"user_joined", .vDict [("user_id", .vStr sess.user_id), ("user_role", .vStr sess.user_role)],
         .toRoomExcept rid sid⟩,
        ⟨"room_joined", .vDict [("room_id", .vStr rid), ("status", .vStr "joined")], .toCaller⟩]) := by
  simp [handle_join_room, hs, strTruthy, hrid, noFaults, hr]

/-- Upserting keyed by socket_id keeps the socket_id column duplicate-free. -/
theorem upsertParticipant_nodup (ps : List Participant) (p : Participant)
    (h : (ps.map (fun q => q.socket_id)).Nodup) :
    ((upsertParticipant ps p).map (fun q => q.socket_id)).Nodup := by
  unfold upsertParticipant
  split
  · have heq : (ps.map (fun q => if q.socket_id = p.socket_id then p else q)).map
        (fun q => q.socket_id) = ps.map (fun q => q.socket_id) := by
      rw [List.map_map]
      refine List.map_congr_left ?_
      intro q _
      by_cases hq : q.socket_id = p.socket_id <;> simp [hq]
    rw [heq]
    exact h
  · next hnot =>
      have hp : p.socket_id ∉ ps.map (fun q => q.socket_id) := by
        intro hmem
        rcases List.mem_map.mp hmem with ⟨q, hq, hqe⟩
        exact hnot (List.any_eq_true.mpr ⟨q, hq, by simpa using hqe⟩)
      simp [List.nodup_append, h, hp]

/-- The room-store invariant of the spec: no room document holds two
participant records with the same connection (socket) id. -/
def participantsNodup (store : List RoomDoc) : Prop :=
  ∀ r ∈ store, (r.participants.map (fun p => p.socket_id)).Nodup

/-- `addParticipant` preserves the invariant. -/
theorem participantsNodup_addParticipant (store : List RoomDoc) (rid : String) (p : Participant)
    (h : participantsNodup store) : participantsNodup (addParticipant store rid p) := by
  intro r hr
  rcases List.mem_map.mp hr with ⟨r0, hr0, hre⟩
  by_cases hcase : r0.room_id = rid
  · subst hre; simp only [hcase, if_pos]
    exact upsertParticipant_nodup r0.participants p (h r0 hr0)
  · subst hre; simp only [hcase, ite_false]
    exact h r0 hr0

/-- `removeParticipant` preserves the invariant. -/
theorem participantsNodup_removeParticipant (store : List RoomDoc) (rid uid : String)
    (h : participantsNodup store) : participantsNodup (removeParticipant store rid uid) := by
  intro r hr
  rcases List.mem_map.mp hr with ⟨r0, hr0, hre⟩
  by_cases hcase : r0.room_id = rid
  · subst hre; simp only [hcase, if_pos]
    exact ((List.filter_sublist r0.participants).map _).nodup (h r0 hr0)
  · subst hre; simp only [hcase, ite_false]
    exact h r0 hr0

/-- `addMessage` preserves the invariant. -/
theorem participantsNodup_addMessage (store : List RoomDoc) (rid : String) (m : SignalRecord)
    (h : participantsNodup store) : participantsNodup (addMessage store rid m) := by
  intro r hr
  rcases List.mem_map.mp hr with ⟨r0, hr0, hre⟩
  by_cases hcase : r0.room_id = rid
  · subst hre; simp only [hcase, if_pos]
    exact h r0 hr0
  · subst hre; simp only [hcase, ite_false]
    exact h r0 hr0

/-- `createRoomDoc` preserves the invariant when the new document does. -/
theorem participantsNodup_create (store : List RoomDoc) (d : RoomDoc)
    (h : participantsNodup store) (hd : (d.participants.map (fun p => p.socket_id)).Nodup) :
    participantsNodup (createRoomDoc store d) := by
  intro r hr
  rcases List.mem_append.mp hr with h1 | h1
  · exact h r h1
  · simp only [List.mem_singleton] at h1
    subst h1; exact hd

/-- `handle_join_room` preserves the invariant in every branch. -/
theorem participantsNodup_join (f : Faults) (st : ServerState) (sid : String)
    (d : JoinData) (now : Nat) (h : participantsNodup st.store) :
    participantsNodup (handle_join_room f st sid d now).1.store := by
  unfold handle_join_room
  cases hg : getSession st.sessions sid with
  | none => exact h
  | some sess =>
      simp only []
      split
      · exact h
      · split
        · exact h
        · split
          · exact h
          · split
            · split
              · exact participantsNodup_create _ _ h (by simp)
              · exact h
            · apply participantsNodup_addParticipant
              split
              · exact participantsNodup_create _ _ h (by simp)
              · exact h

/-- `handle_leave_room` preserves the invariant in every branch. -/
theorem participantsNodup_leave (f : Faults) (st : ServerState) (sid : String)
    (d : JoinData) (h : participantsNodup st.store) :
    participantsNodup (handle_leave_room f st sid d).1.store := by
  unfold handle_leave_room
  cases hg : getSession st.sessions sid with
  | none => exact h
  | some sess =>
      simp only []
      split
      · exact h
      · split
        · exact h
        · exact participantsNodup_removeParticipant _ _ _ h

/-- `handle_webrtc_signal` preserves the invariant in every branch. -/
theorem participantsNodup_signal (f : Faults) (st : ServerState) (sid : String)
    (d : SignalData) (now : Nat) (h : participantsNodup st.store) :
    participantsNodup (handle_webrtc_signal f st sid d now).1.store := by
  unfold handle_webrtc_signal
  cases hg : getSession st.sessions sid with
  | none => exact h
  | some sess =>
      simp only []
      split
      · exact h
      · split
        · exact h
        · split
          · split
            · exact participantsNodup_addMessage _ _ _ h
            · split
              · split
                · split
                  · exact participantsNodup_addMessage _ _ _ h
                  · exact participantsNodup_addMessage _ _ _ h
                · exact participantsNodup_addMessage _ _ _ h
              · exact participantsNodup_addMessage _ _ _ h
          · exact participantsNodup_addMessage _ _ _ h

/-- `handle_authenticate` never touches the store. -/
theorem participantsNodup_auth (verify : String → Option Session) (st : ServerState)
    (sid : String) (tok : Option String) (h : participantsNodup st.store) :
    participantsNodup (handle_authenticate verify st sid tok).1.store := by
  unfold handle_authenticate
  split
  · exact h
  · split
    · exact h
    · exact h

/-- One dispatched event preserves the invariant. -/
theorem participantsNodup_step (verify : String → Option Session) (f : Faults)
    (st : ServerState) (e : Event) (h : participantsNodup st.store) :
    participantsNodup (step verify f st e).1.store := by
  cases e with
  | auth sid tok => exact participantsNodup_auth verify st sid tok h
  | join sid d now => exact participantsNodup_join f st sid d now h
  | leave sid d => exact participantsNodup_leave f st sid d h
  | signal sid d now => exact participantsNodup_signal f st sid d now h
  | connect sid => exact h
  | disconnect sid => exact h

/-- Any event sequence preserves the invariant. -/
theorem participantsNodup_run (verify : String → Option Session) (f : Faults)
    (es : List Event) :
    ∀ st : ServerState, participantsNodup st.store →
      participantsNodup (run verify f st es).store := by
  induction es with
  | nil => intro st h; exact h
  | cons e es ih =>
      intro st h
      exact ih _ (participantsNodup_step verify f st e h)

/-- C1: for an authenticated sender, a webrtc_signal whose target_id matches
the user_id of exactly one participant B of the room's participant list is
delivered, tagged with the sender's user_id and role, only to the socket
recorded for B; a webrtc_signal with no target_id is delivered to every
other connection in the room and never back to the sender. -/
theorem webrtc_signal_routing_correct (st : ServerState) (sidA : String) (sess : Session)
    (rid : String) (sig : PyVal) (tid : String) (room : RoomDoc) (pB : Participant) (now : Nat)
    (hs : getSession st.sessions sidA = some sess)
    (hrid : rid ≠ "") (hsig : sig.truthy = true) (htid : tid ≠ "")
    (hroom : findByRoomId st.store rid = some room)
    (hmem : pB ∈ room.participants) (hid : pB.user_id = tid)
    (huniq : ∀ q ∈ room.participants, q.user_id = tid → q = pB)
    (hsock : pB.socket_id ≠ "") :
    handle_webrtc_signal noFaults st sidA ⟨some rid, some sig, some tid⟩ now =
      ({ st with store := addMessage st.store rid ⟨sess.user_id, sess.user_role, now, sig, some tid⟩ },
       [⟨"webrtc_signal", signalPayload sess sig, .toSid pB.socket_id⟩]) ∧
    recipients st.sioRooms sidA (.toSid pB.socket_id) = [pB.socket_id] ∧
    handle_webrtc_signal noFaults st sidA ⟨some rid, some sig, none⟩ now =
      ({ st with store := addMessage st.store rid ⟨sess.user_id, sess.user_role, now, sig, none⟩ },
       [⟨"webrtc_signal", signalPayload sess sig, .toRoomExcept rid sidA⟩]) ∧
    sidA ∉ recipients st.sioRooms sidA (.toRoomExcept rid sidA) ∧
    (∀ m ∈ sioMembers st.sioRooms rid, m ≠ sidA →
      m ∈ recipients st.sioRooms sidA (.toRoomExcept rid sidA)) := by
  refine ⟨?_, rfl, ?_, ?_, ?_⟩
  · simp only [handle_webrtc_signal, hs, strTruthy, optTruthy, hrid, hsig, noFaults]
    simp only [findByRoomId_addMessage, hroom]
    have hfind : findTargetSocket room.participants tid = some pB.socket_id :=
      findTargetSocket_of_unique room.participants tid pB hmem hid huniq
    simp [hroom, hfind, hsock, hrid, hsig, htid]
  · simp [handle_webrtc_signal, hs, strTruthy, optTruthy, hrid, hsig, noFaults]
  · simp [recipients, List.mem_filter]
  · intro m hm hne
    simp [recipients, List.mem_filter, hm, hne]

/-- Witness for C1 on the concrete three-party room. -/
theorem webrtc_signal_routing_correct_witness :
    getSession demoState.sessions "sA" = some ⟨"u1", "patient"⟩ ∧
    findByRoomId demoState.store "r" = some demoRoom ∧
    (⟨"sB", "u2", "doctor", 2⟩ : Participant) ∈ demoRoom.participants ∧
    (handle_webrtc_signal noFaults demoState "sA" ⟨some "r", some demoOffer, some "u2"⟩ 4 =
       ({ demoState with
            store := addMessage demoState.store "r" ⟨"u1", "patient", 4, demoOffer, some "u2"⟩ },
        [⟨"webrtc_signal", signalPayload ⟨"u1", "patient"⟩ demoOffer, .toSid "sB"⟩]) ∧
     recipients demoState.sioRooms "sA" (.toSid "sB") = ["sB"] ∧
     handle_webrtc_signal noFaults demoState "sA" ⟨some "r", some demoOffer, none⟩ 4 =
       ({ demoState with
            store := addMessage demoState.store "r" ⟨"u1", "patient", 4, demoOffer, none⟩ },
        [⟨"webrtc_signal", signalPayload ⟨"u1", "patient"⟩ demoOffer, .toRoomExcept "r" "sA"⟩]) ∧
     "sA" ∉ recipients demoState.sioRooms "sA" (.toRoomExcept "r" "sA") ∧
     (∀ m ∈ sioMembers demoState.sioRooms "r", m ≠ "sA" →
       m ∈ recipients demoState.sioRooms "sA" (.toRoomExcept "r" "sA"))) :=
  ⟨rfl, rfl, by decide,
   webrtc_signal_routing_correct demoState "sA" ⟨"u1", "patient"⟩ "r" demoOffer "u2" demoRoom
     ⟨"sB", "u2", "doctor", 2⟩ 4 rfl (by decide) (by decide) (by decide) rfl (by decide) rfl
     (by decide) (by decide)⟩

/-- C2: the claim says a transport-level disconnect triggers unbinding of
the connection's identity and a best-effort leave of its rooms so that
remaining members receive user_left.  The disconnect handler in the source
(app.py lines 150-152) only logs: this theorem shows it leaves the whole
server state unchanged and emits nothing, in particular no user_left and no
participant removal. -/
theorem disconnect_handler_no_cleanup (st : ServerState) (sid : String) :
    handle_disconnect st sid = (st, []) := rfl

/-- C3: the claim says a failing message-log append never blocks delivery.
In the source the `add_message` call sits inside the handler's try block
with delivery after it, so when the append raises, the except block emits
signal_error and returns: no webrtc_signal is delivered to anyone.  This
theorem evaluates the code at such a failing input. -/
theorem signal_persistence_failure_blocks_delivery
    (st : ServerState) (sid : String) (sess : Session) (rid : String)
    (sig : PyVal) (tid : Option String) (now : Nat)
    (hs : getSession st.sessions sid = some sess)
    (hrid : rid ≠ "") (hsig : sig.truthy = true) :
    handle_webrtc_signal ⟨false, false, false, false, true⟩ st sid ⟨some rid, some sig, tid⟩ now =
      (st, [⟨"signal_error", errPayload persistenceErrorMsg, .toCaller⟩]) := by
  simp [handle_webrtc_signal, hs, strTruthy, optTruthy, hrid, hsig]

/-- Witness for C3: a targeted signal in the three-party room while the
append raises; the only outbound event is the signal_error to the sender. -/
theorem signal_persistence_failure_blocks_delivery_witness :
    getSession demoState.sessions "sA" = some ⟨"u1", "patient"⟩ ∧
    handle_webrtc_signal ⟨false, false, false, false, true⟩ demoState "sA"
        ⟨some "r", some demoOffer, some "u2"⟩ 4 =
      (demoState, [⟨"signal_error", errPayload persistenceErrorMsg, .toCaller⟩]) :=
  ⟨rfl, signal_persistence_failure_blocks_delivery demoState "sA" ⟨"u1", "patient"⟩ "r" demoOffer
     (some "u2") 4 rfl (by decide) (by decide)⟩

/-- C4: on a connection with no bound identity, join_room and webrtc_signal
each answer with an error event to the caller alone and leave the whole
server state unchanged: no room created, no participant added, no message
logged, nothing delivered to any other connection. -/
theorem unauthenticated_join_and_signal_rejected
    (f : Faults) (st : ServerState) (sid : String) (dj : JoinData) (ds : SignalData)
    (nowJ nowS : Nat)
    (h : getSession st.sessions sid = none) :
    handle_join_room f st sid dj nowJ =
      (st, [⟨"room_error", errPayload "Not authenticated", .toCaller⟩]) ∧
    handle_webrtc_signal f st sid ds nowS =
      (st, [⟨"signal_error", errPayload "Not authenticated", .toCaller⟩]) ∧
    recipients st.sioRooms sid Dest.toCaller = [sid] := by
  refine ⟨?_, ?_, rfl⟩ <;> simp [handle_join_room, handle_webrtc_signal, h]

/-- Witness for C4 on the empty initial state. -/
theorem unauthenticated_join_and_signal_rejected_witness :
    getSession initState.sessions "s1" = none ∧
    (handle_join_room noFaults initState "s1" ⟨some "r"⟩ 0 =
       (initState, [⟨"room_error", errPayload "Not authenticated", .toCaller⟩]) ∧
     handle_webrtc_signal noFaults initState "s1" ⟨some "r", some demoOffer, none⟩ 0 =
       (initState, [⟨"signal_error", errPayload "Not authenticated", .toCaller⟩]) ∧
     recipients initState.sioRooms "s1" Dest.toCaller = ["s1"]) :=
  ⟨rfl, unauthenticated_join_and_signal_rejected noFaults initState "s1" ⟨some "r"⟩
     ⟨some "r", some demoOffer, none⟩ 0 0 rfl⟩

/-- C5: an authenticated webrtc_signal whose target_id matches no user_id
in the room's participant list (which also covers an absent room document)
is broadcast to every connection of the room except the sender — observably
different from a silent drop, since the outbound event list is nonempty. -/
theorem signal_target_miss_falls_back_to_broadcast (st : ServerState) (sidA : String)
    (sess : Session) (rid : String) (sig : PyVal) (tid : String) (now : Nat)
    (hs : getSession st.sessions sidA = some sess)
    (hrid : rid ≠ "") (hsig : sig.truthy = true) (htid : tid ≠ "")
    (hmiss : ∀ room, findByRoomId st.store rid = some room →
      ∀ q ∈ room.participants, q.user_id ≠ tid) :
    handle_webrtc_signal noFaults st sidA ⟨some rid, some sig, some tid⟩ now =
      ({ st with store := addMessage st.store rid ⟨sess.user_id, sess.user_role, now, sig, some tid⟩ },
       [⟨"webrtc_signal", signalPayload sess sig, .toRoomExcept rid sidA⟩]) ∧
    (handle_webrtc_signal noFaults st sidA ⟨some rid, some sig, some tid⟩ now).2 ≠ [] := by
  have h1 : handle_webrtc_signal noFaults st sidA ⟨some rid, some sig, some tid⟩ now =
      ({ st with store := addMessage st.store rid ⟨sess.user_id, sess.user_role, now, sig, some tid⟩ },
       [⟨"webrtc_signal", signalPayload sess sig, .toRoomExcept rid sidA⟩]) := by
    simp only [handle_webrtc_signal, hs, strTruthy, optTruthy, hrid, hsig, noFaults]
    cases hr : findByRoomId st.store rid with
    | none => simp [findByRoomId_addMessage, hr, hrid, hsig, htid]
    | some room =>
        have hnone : findTargetSocket room.participants tid = none :=
          findTargetSocket_eq_none room.participants tid (hmiss room hr)
        simp [findByRoomId_addMessage, hr, hnone, hrid, hsig, htid]
  exact ⟨h1, by rw [h1]; simp⟩

/-- Witness for C5: target user "zz" is in no participant record of the
three-party room, so the signal falls back to the room broadcast. -/
theorem signal_target_miss_falls_back_to_broadcast_witness :
    getSession demoState.sessions "sA" = some ⟨"u1", "patient"⟩ ∧
    (∀ room, findByRoomId demoState.store "r" = some room →
      ∀ q ∈ room.participants, q.user_id ≠ "zz") ∧
    (handle_webrtc_signal noFaults demoState "sA" ⟨some "r", some demoOffer, some "zz"⟩ 4 =
       ({ demoState with
            store := addMessage demoState.store "r" ⟨"u1", "patient", 4, demoOffer, some "zz"⟩ },
        [⟨"webrtc_signal", signalPayload ⟨"u1", "patient"⟩ demoOffer, .toRoomExcept "r" "sA"⟩]) ∧
     (handle_webrtc_signal noFaults demoState "sA" ⟨some "r", some demoOffer, some "zz"⟩ 4).2 ≠ []) := by
  have hmiss : ∀ room, findByRoomId demoState.store "r" = some room →
      ∀ q ∈ room.participants, q.user_id ≠ "zz" := by
    intro room hr
    rw [show findByRoomId demoState.store "r" = some demoRoom from rfl] at hr
    injection hr with h
    subst h
    decide
  exact ⟨rfl, hmiss, signal_target_miss_falls_back_to_broadcast demoState "sA" ⟨"u1", "patient"⟩
    "r" demoOffer "zz" 4 rfl (by decide) (by decide) (by decide) hmiss⟩

/-- C6: a fault-free authenticated join_room with a non-empty room_id joins
the transport room, emits exactly one user_joined (room broadcast skipping
the joiner) and exactly one room_joined ack (to the joiner only), records a
participant keyed by the connection id in the room document, and, when the
room document was absent, creates it with status active, created_by the
joiner's user_id, the joiner as sole participant and no messages. -/
theorem join_room_creates_room_and_notifies (st : ServerState) (sid : String)
    (sess : Session) (rid : String) (now : Nat)
    (hs : getSession st.sessions sid = some sess) (hrid : rid ≠ "")
    (hnd : st.sioRooms.Nodup) :
    (handle_join_room noFaults st sid ⟨some rid⟩ now).1.sioRooms = sioJoin st.sioRooms rid sid ∧
    (handle_join_room noFaults st sid ⟨some rid⟩ now).2 =
      [⟨"user_joined", .vDict [("user_id", .vStr sess.user_id), ("user_role", .vStr sess.user_role)],
        .toRoomExcept rid sid⟩,
       ⟨"room_joined", .vDict [("room_id", .vStr rid), ("status", .vStr "joined")], .toCaller⟩] ∧
    (∃ room2, findByRoomId (handle_join_room noFaults st sid ⟨some rid⟩ now).1.store rid = some room2 ∧
      (⟨sid, sess.user_id, sess.user_role, now⟩ : Participant) ∈ room2.participants) ∧
    (findByRoomId st.store rid = none →
      findByRoomId (handle_join_room noFaults st sid ⟨some rid⟩ now).1.store rid =
        some ⟨rid, sess.user_id, "active", [⟨sid, sess.user_id, sess.user_role, now⟩], []⟩) ∧
    recipients (sioJoin st.sioRooms rid sid) sid Dest.toCaller = [sid] ∧
    sid ∉ recipients (sioJoin st.sioRooms rid sid) sid (Dest.toRoomExcept rid sid) ∧
    (∀ m ∈ sioMembers st.sioRooms rid, m ≠ sid →
      m ∈ recipients (sioJoin st.sioRooms rid sid) sid (Dest.toRoomExcept rid sid)) ∧
    (recipients (sioJoin st.sioRooms rid sid) sid (Dest.toRoomExcept rid sid)).Nodup := by
  have hrec := join_recipient_facts st sid rid hnd
  cases hr : findByRoomId st.store rid with
  | none =>
      have heq := handle_join_room_success_create st sid sess rid now hs hrid hr
      refine ⟨by rw [heq], by rw [heq], ?_, ?_, hrec.1, hrec.2.1, hrec.2.2.1, hrec.2.2.2⟩
      · refine ⟨⟨rid, sess.user_id, "active", [⟨sid, sess.user_id, sess.user_role, now⟩], []⟩, ?_, ?_⟩
        · rw [heq]
          simp only []
          rw [findByRoomId_addParticipant, findByRoomId_create_absent st.store rid _ hr rfl]
          rfl
        · exact List.mem_singleton.mpr rfl
      · intro _
        rw [heq]
        simp only []
        rw [findByRoomId_addParticipant, findByRoomId_create_absent st.store rid _ hr rfl]
        rfl
  | some room =>
      have heq := handle_join_room_success_existing st sid sess rid now room hs hrid hr
      refine ⟨by rw [heq], by rw [heq], ?_, ?_, hrec.1, hrec.2.1, hrec.2.2.1, hrec.2.2.2⟩
      · refine ⟨{ room with
            participants := upsertParticipant room.participants ⟨sid, sess.user_id, sess.user_role, now⟩ },
          ?_, ?_⟩
        · rw [heq]
          simp only []
          rw [findByRoomId_addParticipant, hr]
          rfl
        · exact self_mem_upsertParticipant room.participants _
      · intro habs
        exact Option.noConfusion habs

/-- Witness for C6: sA joins the previously absent room "r2". -/
theorem join_room_creates_room_and_notifies_witness :
    getSession demoState.sessions "sA" = some ⟨"u1", "patient"⟩ ∧
    demoState.sioRooms.Nodup ∧
    ((handle_join_room noFaults demoState "sA" ⟨some "r2"⟩ 5).1.sioRooms =
       sioJoin demoState.sioRooms "r2" "sA" ∧
     (handle_join_room noFaults demoState "sA" ⟨some "r2"⟩ 5).2 =
       [⟨"user_joined", .vDict [("user_id", .vStr "u1"), ("user_role", .vStr "patient")],
         .toRoomExcept "r2" "sA"⟩,
        ⟨"room_joined", .vDict [("room_id", .vStr "r2"), ("status", .vStr "joined")], .toCaller⟩] ∧
     (∃ room2, findByRoomId (handle_join_room noFaults demoState "sA" ⟨some "r2"⟩ 5).1.store "r2" =
         some room2 ∧
       (⟨"sA", "u1", "patient", 5⟩ : Participant) ∈ room2.participants) ∧
     (findByRoomId demoState.store "r2" = none →
       findByRoomId (handle_join_room noFaults demoState "sA" ⟨some "r2"⟩ 5).1.store "r2" =
         some ⟨"r2", "u1", "active", [⟨"sA", "u1", "patient", 5⟩], []⟩) ∧
     recipients (sioJoin demoState.sioRooms "r2" "sA") "sA" Dest.toCaller = ["sA"] ∧
     "sA" ∉ recipients (sioJoin demoState.sioRooms "r2" "sA") "sA" (Dest.toRoomExcept "r2" "sA") ∧
     (∀ m ∈ sioMembers demoState.sioRooms "r2", m ≠ "sA" →
       m ∈ recipients (sioJoin demoState.sioRooms "r2" "sA") "sA" (Dest.toRoomExcept "r2" "sA")) ∧
     (recipients (sioJoin demoState.sioRooms "r2" "sA") "sA" (Dest.toRoomExcept "r2" "sA")).Nodup) :=
  ⟨rfl, by decide,
   join_room_creates_room_and_notifies demoState "sA" ⟨"u1", "patient"⟩ "r2" 5 rfl (by decide)
     (by decide)⟩

/-- Counterexample to C7 as stated: after sA leaves room "r", a second
leave_room call raises no error but emits user_left to the room again, and
that duplicate broadcast reaches the remaining member sB. -/
theorem leave_room_twice_duplicate_user_left :
    (handle_leave_room noFaults demoState "sA" ⟨some "r"⟩).2 =
      [⟨"user_left", .vDict [("user_id", .vStr "u1")], .toRoom "r"⟩] ∧
    (handle_leave_room noFaults
        (handle_leave_room noFaults demoState "sA" ⟨some "r"⟩).1 "sA" ⟨some "r"⟩).2 =
      [⟨"user_left", .vDict [("user_id", .vStr "u1")], .toRoom "r"⟩] ∧
    "sB" ∈ recipients
        (handle_leave_room noFaults
          (handle_leave_room noFaults demoState "sA" ⟨some "r"⟩).1 "sA" ⟨some "r"⟩).1.sioRooms
        "sA" (Dest.toRoom "r") :=
  ⟨rfl, rfl, by decide⟩

/-- C7 amended: a fault-free authenticated leave_room with a non-empty
room_id never emits an error event, whether or not the connection is in the
room — a second call in succession, or a leave of a room never joined,
raises nothing — but every such call emits one more user_left broadcast to
the whole room. -/
theorem leave_room_no_error_but_rebroadcasts (st : ServerState) (sid : String)
    (sess : Session) (rid : String)
    (hs : getSession st.sessions sid = some sess) (hrid : rid ≠ "") :
    handle_leave_room noFaults st sid ⟨some rid⟩ =
      ({ st with sioRooms := sioLeave st.sioRooms rid sid,
                 store := removeParticipant st.store rid sess.user_id },
       [⟨"user_left", .vDict [("user_id", .vStr sess.user_id)], .toRoom rid⟩]) := by
  simp [handle_leave_room, hs, strTruthy, hrid, noFaults]

/-- Witness for the amended C7: sA leaving the concrete room. -/
theorem leave_room_no_error_but_rebroadcasts_witness :
    getSession demoState.sessions "sA" = some ⟨"u1", "patient"⟩ ∧
    handle_leave_room noFaults demoState "sA" ⟨some "r"⟩ =
      ({ demoState with sioRooms := sioLeave demoState.sioRooms "r" "sA",
                        store := removeParticipant demoState.store "r" "u1" },
       [⟨"user_left", .vDict [("user_id", .vStr "u1")], .toRoom "r"⟩]) :=
  ⟨rfl, leave_room_no_error_but_rebroadcasts demoState "sA" ⟨"u1", "patient"⟩ "r" rfl (by decide)⟩

/-- Counterexample to C8 as stated: sA joins the absent room "r2" while the
add_participant store call raises; the handler answers with room_error, yet
the transport-level room membership has gained the pair ("r2", "sA") and
the store has gained a room document — a failed join that mutated prior
state. -/
theorem failed_join_leaves_partial_state :
    (handle_join_room ⟨false, false, true, false, false⟩ demoState "sA" ⟨some "r2"⟩ 5).2 =
      [⟨"room_error", errPayload persistenceErrorMsg, .toCaller⟩] ∧
    (handle_join_room ⟨false, false, true, false, false⟩ demoState "sA" ⟨some "r2"⟩ 5).1.sioRooms =
      demoState.sioRooms ++ [("r2", "sA")] ∧
    (handle_join_room ⟨false, false, true, false, false⟩ demoState "sA" ⟨some "r2"⟩ 5).1.store.length =
      demoState.store.length + 1 :=
  ⟨rfl, rfl, rfl⟩

/-- C8 amended: join_room and leave_room failures detected before any
mutation — an unauthenticated caller or a falsy room_id — leave the whole
prior state untouched; but a store failure mid-handler keeps the mutations
already performed, for every store call that can raise in either handler:
a raising find, create or add_participant in join_room keeps the
transport-level join (and the room document already created before a
raising add_participant) while room_error is emitted, and a raising
remove_participant in leave_room keeps the transport-level leave and is
caught silently, emitting nothing. -/
theorem join_leave_failure_state_effects (f : Faults) (st : ServerState) (sid : String)
    (d : JoinData) (now : Nat) (sess : Session) (rid : String) :
    (getSession st.sessions sid = none ∨ strTruthy d.room_id = false →
      (handle_join_room f st sid d now).1 = st ∧ (handle_leave_room f st sid d).1 = st) ∧
    (getSession st.sessions sid = some sess → rid ≠ "" →
      (f.findFails = true →
        handle_join_room f st sid ⟨some rid⟩ now =
          ({ st with sioRooms := sioJoin st.sioRooms rid sid },
           [⟨"room_error", errPayload persistenceErrorMsg, .toCaller⟩])) ∧
      (f.findFails = false → f.createFails = true → findByRoomId st.store rid = none →
        handle_join_room f st sid ⟨some rid⟩ now =
          ({ st with sioRooms := sioJoin st.sioRooms rid sid },
           [⟨"room_error", errPayload persistenceErrorMsg, .toCaller⟩])) ∧
      (f.findFails = false → f.createFails = false → f.addParticipantFails = true →
        findByRoomId st.store rid = none →
        handle_join_room f st sid ⟨some rid⟩ now =
          ({ st with sioRooms := sioJoin st.sioRooms rid sid,
                     store := createRoomDoc st.store ⟨rid, sess.user_id, "active", [], []⟩ },
           [⟨"room_error", errPayload persistenceErrorMsg, .toCaller⟩])) ∧
      (∀ room, f.findFails = false → f.addParticipantFails = true →
        findByRoomId st.store rid = some room →
        handle_join_room f st sid ⟨some rid⟩ now =
          ({ st with sioRooms := sioJoin st.sioRooms rid sid },
           [⟨"room_error", errPayload persistenceErrorMsg, .toCaller⟩])) ∧
      (f.removeParticipantFails = true →
        handle_leave_room f st sid ⟨some rid⟩ =
          ({ st with sioRooms := sioLeave st.sioRooms rid sid }, []))) := by
  constructor
  · rintro (h | h)
    · simp [handle_join_room, handle_leave_room, h]
    · cases hg : getSession st.sessions sid with
      | none => simp [handle_join_room, handle_leave_room, hg]
      | some s => simp [handle_join_room, handle_leave_room, hg, h]
  · intro hs hrid
    refine ⟨?_, ?_, ?_, ?_, ?_⟩
    · intro hfind
      simp [handle_join_room, hs, strTruthy, hrid, hfind]
    · intro hfind hcreate habs
      simp [handle_join_room, hs, strTruthy, hrid, hfind, hcreate, habs]
    · intro hfind hcreate hadd habs
      simp [handle_join_room, hs, strTruthy, hrid, hfind, hcreate, hadd, habs]
    · intro room hfind hadd hroom
      simp [handle_join_room, hs, strTruthy, hrid, hfind, hadd, hroom]
    · intro hrem
      simp [handle_leave_room, hs, strTruthy, hrid, hrem]

/-- Witness for the amended C8, exercising every branch: an unauthenticated
join and leave on the empty state mutate nothing; against the three-party
state, a raising find, a raising create (room absent), a raising
add_participant (room absent and room present) each keep the transport join
and emit room_error, the room-absent add_participant case also keeping the
created document; and a raising remove_participant keeps the transport
leave and emits nothing. -/
theorem join_leave_failure_state_effects_witness :
    getSession initState.sessions "sX" = none ∧
    (handle_join_room noFaults initState "sX" ⟨some "r"⟩ 0).1 = initState ∧
    (handle_leave_room noFaults initState "sX" ⟨some "r"⟩).1 = initState ∧
    getSession demoState.sessions "sA" = some ⟨"u1", "patient"⟩ ∧
    findByRoomId demoState.store "r2" = none ∧
    findByRoomId demoState.store "r" = some demoRoom ∧
    handle_join_room ⟨true, false, false, false, false⟩ demoState "sA" ⟨some "r2"⟩ 5 =
      ({ demoState with sioRooms := sioJoin demoState.sioRooms "r2" "sA" },
       [⟨"room_error", errPayload persistenceErrorMsg, .toCaller⟩]) ∧
    handle_join_room ⟨false, true, false, false, false⟩ demoState "sA" ⟨some "r2"⟩ 5 =
      ({ demoState with sioRooms := sioJoin demoState.sioRooms "r2" "sA" },
       [⟨"room_error", errPayload persistenceErrorMsg, .toCaller⟩]) ∧
    handle_join_room ⟨false, false, true, false, false⟩ demoState "sA" ⟨some "r2"⟩ 5 =
      ({ demoState with sioRooms := sioJoin demoState.sioRooms "r2" "sA",
                        store := createRoomDoc demoState.store ⟨"r2", "u1", "active", [], []⟩ },
       [⟨"room_error", errPayload persistenceErrorMsg, .toCaller⟩]) ∧
    handle_join_room ⟨false, false, true, false, false⟩ demoState "sA" ⟨some "r"⟩ 5 =
      ({ demoState with sioRooms := sioJoin demoState.sioRooms "r" "sA" },
       [⟨"room_error", errPayload persistenceErrorMsg, .toCaller⟩]) ∧
    handle_leave_room ⟨false, false, false, true, false⟩ demoState "sA" ⟨some "r"⟩ =
      ({ demoState with sioRooms := sioLeave demoState.sioRooms "r" "sA" }, []) := by
  have h1 := (join_leave_failure_state_effects noFaults initState "sX" ⟨some "r"⟩ 0
    ⟨"u1", "patient"⟩ "r").1 (Or.inl rfl)
  have hfind := ((join_leave_failure_state_effects ⟨true, false, false, false, false⟩ demoState
    "sA" ⟨some "r2"⟩ 5 ⟨"u1", "patient"⟩ "r2").2 rfl (by decide)).1 rfl
  have hcreate := (((join_leave_failure_state_effects ⟨false, true, false, false, false⟩ demoState
    "sA" ⟨some "r2"⟩ 5 ⟨"u1", "patient"⟩ "r2").2 rfl (by decide)).2.1) rfl rfl rfl
  have haddAbsent := (((join_leave_failure_state_effects ⟨false, false, true, false, false⟩
    demoState "sA" ⟨some "r2"⟩ 5 ⟨"u1", "patient"⟩ "r2").2 rfl (by decide)).2.2.1) rfl rfl rfl rfl
  have haddPresent := (((join_leave_failure_state_effects ⟨false, false, true, false, false⟩
    demoState "sA" ⟨some "r"⟩ 5 ⟨"u1", "patient"⟩ "r").2 rfl (by decide)).2.2.2.1)
    demoRoom rfl rfl rfl
  have hrem := (((join_leave_failure_state_effects ⟨false, false, false, true, false⟩ demoState
    "sA" ⟨some "r"⟩ 0 ⟨"u1", "patient"⟩ "r").2 rfl (by decide)).2.2.2.2) rfl
  exact ⟨rfl, h1.1, h1.2, rfl, rfl, rfl, hfind, hcreate, haddAbsent, haddPresent, hrem⟩

/-- C9: from the initial state, no sequence of inbound events — whatever
the token verifier accepts and whatever store faults occur — produces a
reachable room document whose participants list holds two records with the
same connection (socket) id. -/
theorem reachable_rooms_no_duplicate_socket_ids (verify : String → Option Session)
    (f : Faults) (es : List Event) :
    ∀ r ∈ (run verify f initState es).store,
      (r.participants.map (fun p => p.socket_id)).Nodup :=
  participantsNodup_run verify f es initState (fun r hr => absurd hr (List.not_mem_nil r))

/-- Witness for C9: the room document reached by the three-party join
sequence has pairwise distinct socket ids. -/
theorem reachable_rooms_no_duplicate_socket_ids_witness :
    demoRoom ∈ (run demoVerify noFaults initState
      [.auth "sA" (some "tokA"), .join "sA" ⟨some "r"⟩ 1,
       .auth "sB" (some "tokB"), .join "sB" ⟨some "r"⟩ 2,
       .auth "sC" (some "tokC"), .join "sC" ⟨some "r"⟩ 3]).store ∧
    (demoRoom.participants.map (fun p => p.socket_id)).Nodup :=
  ⟨List.mem_singleton.mpr rfl,
   reachable_rooms_no_duplicate_socket_ids demoVerify noFaults
     [.auth "sA" (some "tokA"), .join "sA" ⟨some "r"⟩ 1,
      .auth "sB" (some "tokB"), .join "sB" ⟨some "r"⟩ 2,
      .auth "sC" (some "tokC"), .join "sC" ⟨some "r"⟩ 3]
     demoRoom (List.mem_singleton.mpr rfl)⟩

/-- C10: an authenticated webrtc_signal whose signal field is present but
falsy (empty dict, empty string, zero, false, null) is rejected with the
signal_error saying room id and signal are required, with no message
logged and nothing delivered: the state is unchanged and the only outbound
event goes to the caller. -/
theorem falsy_signal_rejected_without_effects (f : Faults) (st : ServerState) (sid : String)
    (sess : Session) (rid : Option String) (v : PyVal) (tid : Option String) (now : Nat)
    (hs : getSession st.sessions sid = some sess)
    (hv : v.truthy = false) :
    handle_webrtc_signal f st sid ⟨rid, some v, tid⟩ now =
      (st, [⟨"signal_error", errPayload "Room ID and signal are required", .toCaller⟩]) := by
  simp [handle_webrtc_signal, hs, optTruthy, hv]

/-- Witness for C10: the empty dict is present but falsy, so the signal is
rejected even with a valid room id. -/
theorem falsy_signal_rejected_without_effects_witness :
    getSession demoState.sessions "sA" = some ⟨"u1", "patient"⟩ ∧
    (PyVal.vDict []).truthy = false ∧
    handle_webrtc_signal noFaults demoState "sA" ⟨some "r", some (.vDict []), none⟩ 4 =
      (demoState, [⟨"signal_error", errPayload "Room ID and signal are required", .toCaller⟩]) :=
  ⟨rfl, by decide,
   falsy_signal_rejected_without_effects noFaults demoState "sA" ⟨"u1", "patient"⟩
     (some "r") (.vDict []) none 4 rfl (by decide)⟩

end DocEasy
